import Mathlib

/-!
Shallow embedding of the BookSwap exchange core:
the listing store (`BookListingsDao`), the exchange-request store
(`ExchangeRequestsDao`), the `ExchangeService` wrapper, and the
accept-exchange orchestration of the HTTP controller
(`PUT /exchanges/:id/accept`).

Each SQLite table is modelled as a `List` of rows; `SELECT ... WHERE pk = ?`
followed by `.get` is `List.find?` on the row key, `UPDATE ... WHERE c` is a
`List.map` that rewrites the rows matching `c`, `DELETE ... WHERE c` is a
`List.filter` keeping the rows not matching `c`, and `result.changes > 0`
is `List.any`.  A `better-sqlite3` transaction that throws is rolled back,
so every mutating operation returns the resulting store state together with
its result, and an error path returns the state it started from.  JavaScript
error classes become constructors of `DomainError`; the distinct messages of
a shared class are kept where call sites distinguish them.  The repository
never issues `PRAGMA foreign_keys = ON`, so SQLite's declared
`ON DELETE CASCADE` clauses are inert and deletes touch only their own table.
-/

namespace BookSwap

/-- A row of the `book_listings` table (`BookListing` in `BookListingsDao.ts`). -/
structure BookListing where
  listing_id : Nat
  description : String
  list_on_date : Nat
  user_id : Nat
  book_id : Nat
deriving DecidableEq, Repr

/-- A row of the `exchange_requests` table (`ExchangeRequest` in
`ExchangeRequestsDao.ts`). -/
structure ExchangeRequest where
  request_id : Nat
  requestee_listing_id : Nat
  requester_listing_id : Nat
  status : String
  request_date : Nat
deriving DecidableEq, Repr

/-- The error classes thrown by the embedded code.  `notAuthorized` stands for
the controller's 403 response on the accept route. -/
inductive DomainError where
  | exchangeRequestNotFound
  | bookListingNotFound
  | createExchangeRequestError (msg : String)
  | updateExchangeRequestError
  | updateBookListingError
  | notAuthorized
deriving DecidableEq, Repr

/-- `CreateExchangeRequestError` is the class every failure of the create
path is wrapped into; the spec's `ValidationError` kind. -/
def DomainError.isCreateError : DomainError → Bool
  | .createExchangeRequestError _ => true
  | _ => false

/-! ## Listing store (`BookListingsDao.ts`) -/

/-- `getBookListingById`: `SELECT * FROM book_listings WHERE listing_id = ?`,
throwing `BookListingNotFoundError` when absent. -/
def getBookListingById (listings : List BookListing) (listingId : Nat) :
    Except DomainError BookListing :=
  match listings.find? (fun l => l.listing_id == listingId) with
  | some l => .ok l
  | none => .error .bookListingNotFound

/-- `getAllBookListings`: `SELECT * FROM book_listings`. -/
def getAllBookListings (listings : List BookListing) : List BookListing :=
  listings

/-- The `updates` argument of `updateBookListing`:
`Partial<Omit<BookListing, 'listing_id'>>` — each field optionally present. -/
structure ListingUpdates where
  description : Option String := none
  list_on_date : Option Nat := none
  user_id : Option Nat := none
  book_id : Option Nat := none
deriving DecidableEq, Repr

/-- One row after `UPDATE book_listings SET <given fields> WHERE listing_id = ?`:
every supplied field is overwritten, `listing_id` cannot be updated. -/
def applyListingUpdates (u : ListingUpdates) (l : BookListing) : BookListing :=
  { l with
    description := u.description.getD l.description
    list_on_date := u.list_on_date.getD l.list_on_date
    user_id := u.user_id.getD l.user_id
    book_id := u.book_id.getD l.book_id }

/-- `updateBookListing`: inside a transaction, run the `UPDATE` and re-read the
row; a `BookListingNotFoundError` from the re-read is rethrown as
`UpdateBookListingError` and the transaction rolls back. -/
def updateBookListing (listings : List BookListing) (listingId : Nat)
    (u : ListingUpdates) : Except DomainError BookListing × List BookListing :=
  let updated := listings.map fun l =>
    if l.listing_id == listingId then applyListingUpdates u l else l
  match getBookListingById updated listingId with
  | .ok l => (.ok l, updated)
  | .error _ => (.error .updateBookListingError, listings)

/-- `deleteBookListing`: `DELETE FROM book_listings WHERE listing_id = ?`,
returning `result.changes > 0`. -/
def deleteBookListing (listings : List BookListing) (listingId : Nat) :
    Bool × List BookListing :=
  (listings.any (fun l => l.listing_id == listingId),
   listings.filter (fun l => l.listing_id != listingId))

/-! ## Exchange-request store (`ExchangeRequestsDao.ts`) -/

/-- `getExchangeRequestById`: `SELECT * FROM exchange_requests WHERE
request_id = ?`, throwing `ExchangeRequestNotFoundError` when absent. -/
def getExchangeRequestById (reqs : List ExchangeRequest) (requestId : Nat) :
    Except DomainError ExchangeRequest :=
  match reqs.find? (fun r => r.request_id == requestId) with
  | some r => .ok r
  | none => .error .exchangeRequestNotFound

/-- The `SELECT user_id FROM book_listings WHERE listing_id = ?` lookup used by
`createExchangeRequest` to fetch a listing's owner. -/
def listingOwner (listings : List BookListing) (listingId : Nat) : Option Nat :=
  (listings.find? (fun l => l.listing_id == listingId)).map (·.user_id)

/-- `createExchangeRequest` (DAO): inside a transaction, look up both listings'
owners, reject a missing listing or a shared owner, insert the row (the JS
`status || 'pending'` default makes a missing or empty status `pending` and
`request_date ?? now` supplies the current time), then re-read it by
`lastInsertRowid` (`newId`, fresh in a real database).  Any failure is wrapped
into `CreateExchangeRequestError` and the transaction rolls back. -/
def createExchangeRequestDao (listings : List BookListing)
    (reqs : List ExchangeRequest)
    (requesteeListingId requesterListingId : Nat)
    (status : Option String) (requestDate : Option Nat) (now : Nat)
    (newId : Nat) : Except DomainError ExchangeRequest × List ExchangeRequest :=
  match listingOwner listings requesteeListingId,
        listingOwner listings requesterListingId with
  | none, _ =>
      (.error (.createExchangeRequestError "One or both listings not found"), reqs)
  | _, none =>
      (.error (.createExchangeRequestError "One or both listings not found"), reqs)
  | some requesteeOwner, some requesterOwner =>
    if requesteeOwner == requesterOwner then
      (.error (.createExchangeRequestError
        "Cannot create exchange request between listings owned by the same user"), reqs)
    else
      let st := match status with
        | none => "pending"
        | some s => if s == "" then "pending" else s
      let row : ExchangeRequest :=
        { request_id := newId
          requestee_listing_id := requesteeListingId
          requester_listing_id := requesterListingId
          status := st
          request_date := requestDate.getD now }
      let inserted := reqs ++ [row]
      match getExchangeRequestById inserted newId with
      | .ok r => (.ok r, inserted)
      | .error _ =>
          (.error (.createExchangeRequestError
            "Failed to retrieve created exchange request. Transaction failed and rolled back."), reqs)

/-- `updateExchangeRequestStatus`: inside a transaction, `UPDATE
exchange_requests SET status = ? WHERE request_id = ?` then re-read the row; an
`ExchangeRequestNotFoundError` from the re-read is rethrown as
`UpdateExchangeRequestError` and the transaction rolls back. -/
def updateExchangeRequestStatus (reqs : List ExchangeRequest)
    (requestId : Nat) (status : String) :
    Except DomainError ExchangeRequest × List ExchangeRequest :=
  let updated := reqs.map fun r =>
    if r.request_id == requestId then { r with status := status } else r
  match getExchangeRequestById updated requestId with
  | .ok r => (.ok r, updated)
  | .error _ => (.error .updateExchangeRequestError, reqs)

/-- `acceptExchangeRequest`: one transaction that loads the target request,
sets its status to `accepted`, runs `UPDATE exchange_requests SET status =
'rejected' WHERE requestee_listing_id = ? AND request_id != ?`, and returns the
re-read accepted request; any failure rolls the whole transaction back. -/
def acceptExchangeRequest (reqs : List ExchangeRequest) (requestId : Nat) :
    Except DomainError ExchangeRequest × List ExchangeRequest :=
  match getExchangeRequestById reqs requestId with
  | .error e => (.error e, reqs)
  | .ok exchangeRequest =>
    match updateExchangeRequestStatus reqs requestId "accepted" with
    | (.error e, _) => (.error e, reqs)
    | (.ok _, reqs1) =>
      let requesteeListingId := exchangeRequest.requestee_listing_id
      let reqs2 := reqs1.map fun r =>
        if r.requestee_listing_id == requesteeListingId && r.request_id != requestId
        then { r with status := "rejected" } else r
      match getExchangeRequestById reqs2 requestId with
      | .error e => (.error e, reqs)
      | .ok accepted => (.ok accepted, reqs2)

/-- `deleteExchangeRequest`: `DELETE FROM exchange_requests WHERE
request_id = ?`, returning `result.changes > 0`. -/
def deleteExchangeRequest (reqs : List ExchangeRequest) (requestId : Nat) :
    Bool × List ExchangeRequest :=
  (reqs.any (fun r => r.request_id == requestId),
   reqs.filter (fun r => r.request_id != requestId))

/-- `exchangeRequestExists`: `SELECT COUNT(*) ... WHERE requestee_listing_id = ?
AND requester_listing_id = ?` compared with `> 0` — an ordered-pair check. -/
def exchangeRequestExists (reqs : List ExchangeRequest)
    (requesteeListingId requesterListingId : Nat) : Bool :=
  reqs.any fun r =>
    r.requestee_listing_id == requesteeListingId &&
    r.requester_listing_id == requesterListingId

/-! ## `ExchangeService` -/

/-- `ExchangeService.createExchangeRequest`: reject a duplicate ordered pair
with `CreateExchangeRequestError`, otherwise delegate to the DAO with
`status = 'pending'` and `request_date = now`. -/
def serviceCreateExchangeRequest (listings : List BookListing)
    (reqs : List ExchangeRequest)
    (requesteeListingId requesterListingId : Nat) (now : Nat) (newId : Nat) :
    Except DomainError ExchangeRequest × List ExchangeRequest :=
  if exchangeRequestExists reqs requesteeListingId requesterListingId then
    (.error (.createExchangeRequestError
      "An exchange request already exists between these listings"), reqs)
  else
    createExchangeRequestDao listings reqs requesteeListingId requesterListingId
      (some "pending") (some now) now newId

/-! ## Controller: `PUT /exchanges/:id/accept` -/

/-- The two stores the accept route touches. -/
structure StoreState where
  listings : List BookListing
  requests : List ExchangeRequest
deriving DecidableEq, Repr

/-- The accept route of `controller.js`: load the request (404 when absent),
load the requestee listing, refuse with 403 unless the caller owns it, run the
DAO accept transaction, then delete both listings of the accepted request
(best-effort; `deleteBookListing` cannot throw here).  `callerUserId` is the
caller's resolved `user_id` — JWT verification and the username-to-user lookup
are the opaque identity gate.  A thrown error leaves both stores as they
were. -/
def acceptExchange (s : StoreState) (callerUserId requestId : Nat) :
    Except DomainError ExchangeRequest × StoreState :=
  match getExchangeRequestById s.requests requestId with
  | .error e => (.error e, s)
  | .ok existingRequest =>
    match getBookListingById s.listings existingRequest.requestee_listing_id with
    | .error e => (.error e, s)
    | .ok requesteeListing =>
      if requesteeListing.user_id != callerUserId then
        (.error .notAuthorized, s)
      else
        match acceptExchangeRequest s.requests requestId with
        | (.error e, _) => (.error e, s)
        | (.ok exchangeRequest, reqs2) =>
          let ls1 :=
            (deleteBookListing s.listings exchangeRequest.requestee_listing_id).2
          let ls2 :=
            (deleteBookListing ls1 exchangeRequest.requester_listing_id).2
          (.ok exchangeRequest, ⟨ls2, reqs2⟩)

/-! ## Store invariants -/

/-- `request_id` is the `INTEGER PRIMARY KEY AUTOINCREMENT` of
`exchange_requests`: no two rows share it. -/
def UniqueRequestIds (reqs : List ExchangeRequest) : Prop :=
  (reqs.map ExchangeRequest.request_id).Nodup

instance (reqs : List ExchangeRequest) : Decidable (UniqueRequestIds reqs) :=
  inferInstanceAs (Decidable ((reqs.map ExchangeRequest.request_id).Nodup))

/-- The fields of an exchange request other than `status`. -/
def requestCore (r : ExchangeRequest) : Nat × Nat × Nat × Nat :=
  (r.request_id, r.requestee_listing_id, r.requester_listing_id, r.request_date)

/-! ## Concrete fixtures used by the witnesses -/

def demoListing100 : BookListing :=
  { listing_id := 100, description := "a", list_on_date := 1, user_id := 1, book_id := 10 }

def demoListing101 : BookListing :=
  { listing_id := 101, description := "d", list_on_date := 4, user_id := 1, book_id := 11 }

def demoListing200 : BookListing :=
  { listing_id := 200, description := "b", list_on_date := 2, user_id := 2, book_id := 20 }

def demoListing300 : BookListing :=
  { listing_id := 300, description := "c", list_on_date := 3, user_id := 3, book_id := 30 }

def demoReq1 : ExchangeRequest :=
  { request_id := 1, requestee_listing_id := 100, requester_listing_id := 200,
    status := "pending", request_date := 5 }

def demoReq2 : ExchangeRequest :=
  { request_id := 2, requestee_listing_id := 100, requester_listing_id := 300,
    status := "cancelled", request_date := 6 }

def demoReq3 : ExchangeRequest :=
  { request_id := 3, requestee_listing_id := 300, requester_listing_id := 200,
    status := "pending", request_date := 7 }

def demoReqs : List ExchangeRequest := [demoReq1, demoReq2, demoReq3]

def demoState : StoreState :=
  { listings := [demoListing100, demoListing200, demoListing300],
    requests := demoReqs }

/-- The request returned by accepting `demoReq1`. -/
def demoAccepted : ExchangeRequest :=
  { request_id := 1, requestee_listing_id := 100, requester_listing_id := 200,
    status := "accepted", request_date := 5 }

/-- The stores after `acceptExchange demoState 1 1`. -/
def demoPost : StoreState :=
  { listings := [demoListing300],
    requests := [demoAccepted, { demoReq2 with status := "rejected" }, demoReq3] }

/-! ## Helper lemmas -/

theorem find?_req_of_mem :
    ∀ (reqs : List ExchangeRequest) (R : ExchangeRequest),
      UniqueRequestIds reqs → R ∈ reqs →
      reqs.find? (fun r => r.request_id == R.request_id) = some R := by
  intro reqs
  induction reqs with
  | nil => intro R _ hR; cases hR
  | cons a as ih =>
    intro R hu hR
    have hu' : (a.request_id ∉ as.map ExchangeRequest.request_id) ∧
        UniqueRequestIds as := List.nodup_cons.mp hu
    rcases List.mem_cons.mp hR with h | h
    · subst h
      exact List.find?_cons_of_pos _ (by simp)
    · have hne : (a.request_id == R.request_id) = false := by
        refine beq_eq_false_iff_ne.mpr ?_
        intro he
        exact hu'.1 (he ▸ List.mem_map_of_mem ExchangeRequest.request_id h)
      rw [List.find?_cons_of_neg _ (by simp [hne])]
      exact ih R hu'.2 h

theorem getExchangeRequestById_of_mem (reqs : List ExchangeRequest)
    (R : ExchangeRequest) (hu : UniqueRequestIds reqs) (hR : R ∈ reqs) :
    getExchangeRequestById reqs R.request_id = .ok R := by
  unfold getExchangeRequestById
  rw [find?_req_of_mem reqs R hu hR]

theorem find?_map_id_preserving (reqs : List ExchangeRequest)
    (f : ExchangeRequest → ExchangeRequest)
    (hf : ∀ r, (f r).request_id = r.request_id) (rid : Nat) :
    (reqs.map f).find? (fun r => r.request_id == rid) =
      (reqs.find? (fun r => r.request_id == rid)).map f := by
  have hp : ((fun r : ExchangeRequest => r.request_id == rid) ∘ f)
      = fun r : ExchangeRequest => r.request_id == rid := by
    funext r
    simp [Function.comp, hf]
  rw [List.find?_map, hp]

theorem getById_map_id_preserving (reqs : List ExchangeRequest)
    (f : ExchangeRequest → ExchangeRequest)
    (hf : ∀ r, (f r).request_id = r.request_id) (rid : Nat) (R : ExchangeRequest)
    (h : getExchangeRequestById reqs rid = .ok R) :
    getExchangeRequestById (reqs.map f) rid = .ok (f R) := by
  unfold getExchangeRequestById at h ⊢
  rw [find?_map_id_preserving reqs f hf rid]
  cases hfind : reqs.find? (fun r => r.request_id == rid) with
  | none => rw [hfind] at h; cases h
  | some r => rw [hfind] at h; cases h; rfl

/-- The accept transaction, in closed form: the target row becomes `accepted`,
every other row sharing its `requestee_listing_id` becomes `rejected`, and
every remaining row is untouched. -/
theorem acceptExchangeRequest_spec (reqs : List ExchangeRequest)
    (R : ExchangeRequest) (hu : UniqueRequestIds reqs) (hR : R ∈ reqs) :
    acceptExchangeRequest reqs R.request_id =
      (.ok { R with status := "accepted" },
       reqs.map fun q =>
         if q.request_id = R.request_id then { q with status := "accepted" }
         else if q.requestee_listing_id = R.requestee_listing_id then
           { q with status := "rejected" }
         else q) := by
  have h0 : getExchangeRequestById reqs R.request_id = .ok R :=
    getExchangeRequestById_of_mem reqs R hu hR
  have hg : ∀ r : ExchangeRequest,
      ((if r.request_id == R.request_id then
          { r with status := "accepted" } else r) : ExchangeRequest).request_id
        = r.request_id := by
    intro r; split <;> rfl
  have h1 : getExchangeRequestById
      (reqs.map fun r => if r.request_id == R.request_id then
        { r with status := "accepted" } else r) R.request_id =
      .ok { R with status := "accepted" } := by
    have := getById_map_id_preserving reqs
      (fun r => if r.request_id == R.request_id then
        { r with status := "accepted" } else r) hg R.request_id R h0
    simpa using this
  have hh : ∀ r : ExchangeRequest,
      ((if r.requestee_listing_id == R.requestee_listing_id &&
            r.request_id != R.request_id then
          { r with status := "rejected" } else r) : ExchangeRequest).request_id
        = r.request_id := by
    intro r; split <;> rfl
  unfold acceptExchangeRequest updateExchangeRequestStatus
  rw [h0]
  simp only [h1]
  have h2 := getById_map_id_preserving
    (reqs.map fun r => if r.request_id == R.request_id then
      { r with status := "accepted" } else r)
    (fun r => if r.requestee_listing_id == R.requestee_listing_id &&
        r.request_id != R.request_id then
      { r with status := "rejected" } else r) hh R.request_id
    { R with status := "accepted" } h1
  simp only [bne_self_eq_false, Bool.and_false, if_neg, Bool.false_eq_true,
    not_false_eq_true] at h2
  have hfun : ((fun r : ExchangeRequest =>
      if r.requestee_listing_id == R.requestee_listing_id &&
          r.request_id != R.request_id then
        { r with status := "rejected" } else r) ∘
      (fun r : ExchangeRequest =>
        if r.request_id == R.request_id then
          { r with status := "accepted" } else r))
      = fun q : ExchangeRequest =>
        if q.request_id = R.request_id then { q with status := "accepted" }
        else if q.requestee_listing_id = R.requestee_listing_id then
          { q with status := "rejected" }
        else q := by
    funext q
    by_cases hid : q.request_id = R.request_id
    · simp [Function.comp, hid]
    · by_cases hreq : q.requestee_listing_id = R.requestee_listing_id
      · simp [Function.comp, hid, hreq]
      · simp [Function.comp, hid, hreq]
  rw [List.map_map, hfun] at h2
  simp only [List.map_map, hfun, h2]

/-! ## Claims -/

/-- C1: for every existing exchange request `R` with `requestee_listing_id = X`,
after `accept(R.request_id)` the store holds `R` with status `accepted`, every
other request with `requestee_listing_id = X` with status `rejected` regardless
of its prior status, and every request with a different `requestee_listing_id`
exactly as before. -/
theorem accept_cascades_by_requestee (reqs : List ExchangeRequest)
    (R : ExchangeRequest) (hu : UniqueRequestIds reqs) (hR : R ∈ reqs) :
    acceptExchangeRequest reqs R.request_id =
      (.ok { R with status := "accepted" },
       reqs.map fun q =>
         if q.request_id = R.request_id then { q with status := "accepted" }
         else if q.requestee_listing_id = R.requestee_listing_id then
           { q with status := "rejected" }
         else q) :=
  acceptExchangeRequest_spec reqs R hu hR

theorem accept_cascades_by_requestee_witness :
    acceptExchangeRequest demoReqs demoReq1.request_id =
      (.ok { demoReq1 with status := "accepted" },
       demoReqs.map fun q =>
         if q.request_id = demoReq1.request_id then { q with status := "accepted" }
         else if q.requestee_listing_id = demoReq1.requestee_listing_id then
           { q with status := "rejected" }
         else q) :=
  accept_cascades_by_requestee demoReqs demoReq1 (by decide) (by decide)

/-- C9: `accept` imposes no precondition on the target's current status —
whatever status an existing request has (`pending` or not), `accept` succeeds,
returns it as `accepted`, and cascade-rejects the sibling requests. -/
theorem accept_ignores_prior_status (reqs : List ExchangeRequest)
    (R : ExchangeRequest) (hu : UniqueRequestIds reqs) (hR : R ∈ reqs) :
    (acceptExchangeRequest reqs R.request_id).1 =
      .ok { R with status := "accepted" } ∧
    ∀ q ∈ (acceptExchangeRequest reqs R.request_id).2,
      (q.request_id = R.request_id → q.status = "accepted") ∧
      (q.request_id ≠ R.request_id →
        q.requestee_listing_id = R.requestee_listing_id → q.status = "rejected") := by
  have hspec := acceptExchangeRequest_spec reqs R hu hR
  rw [hspec]
  refine ⟨rfl, ?_⟩
  intro q hq
  simp only [List.mem_map] at hq
  obtain ⟨p, hp, hpq⟩ := hq
  subst hpq
  by_cases hid : p.request_id = R.request_id
  · refine ⟨fun _ => by simp [hid], fun hne => ?_⟩
    rw [if_pos hid] at hne ⊢
    exact absurd hid hne
  · rw [if_neg hid]
    by_cases hreq : p.requestee_listing_id = R.requestee_listing_id
    · rw [if_pos hreq]
      exact ⟨fun h => absurd h hid, fun _ _ => rfl⟩
    · rw [if_neg hreq]
      exact ⟨fun h => absurd h hid, fun _ h => absurd h hreq⟩

theorem accept_ignores_prior_status_witness :
    (acceptExchangeRequest demoReqs demoReq2.request_id).1 =
      .ok { demoReq2 with status := "accepted" } ∧
    ∀ q ∈ (acceptExchangeRequest demoReqs demoReq2.request_id).2,
      (q.request_id = demoReq2.request_id → q.status = "accepted") ∧
      (q.request_id ≠ demoReq2.request_id →
        q.requestee_listing_id = demoReq2.requestee_listing_id →
        q.status = "rejected") :=
  accept_ignores_prior_status demoReqs demoReq2 (by decide) (by decide)

theorem map_requestCore_of_core_preserving (reqs : List ExchangeRequest)
    (f : ExchangeRequest → ExchangeRequest)
    (hf : ∀ r, requestCore (f r) = requestCore r) :
    (reqs.map f).map requestCore = reqs.map requestCore := by
  induction reqs with
  | nil => rfl
  | cons a as ih => simp [hf a, ih]

/-- C8: `accept` modifies only status fields — every request's `request_id`,
`requestee_listing_id`, `requester_listing_id` and `request_date` are the same
after the call as before it, and no request is inserted or deleted (stated for
every request id, in particular for every existing request). -/
theorem accept_preserves_non_status_fields (reqs : List ExchangeRequest)
    (requestId : Nat) :
    ((acceptExchangeRequest reqs requestId).2).map requestCore
      = reqs.map requestCore := by
  unfold acceptExchangeRequest updateExchangeRequestStatus
  split
  · rfl
  · split
    · rfl
    · rename_i heq
      dsimp only at heq
      split at heq
      · injection heq with h1 h2
        subst h2
        dsimp only
        split
        · rfl
        · rw [map_requestCore_of_core_preserving _ _ (fun r => by split <;> rfl),
              map_requestCore_of_core_preserving _ _ (fun r => by split <;> rfl)]
      · exact Except.noConfusion (congrArg Prod.fst heq)

/-- C7: on both stores, `delete(id)` returns `true` iff a row with that id was
present (and removed); a second `delete(id)` returns `false` without error and
leaves the store exactly as it was after the first call. -/
theorem delete_true_iff_present_and_idempotent (listings : List BookListing)
    (reqs : List ExchangeRequest) (lid rid : Nat) :
    ((deleteBookListing listings lid).1 = true ↔
      ∃ L ∈ listings, L.listing_id = lid) ∧
    (deleteBookListing (deleteBookListing listings lid).2 lid).1 = false ∧
    (deleteBookListing (deleteBookListing listings lid).2 lid).2
      = (deleteBookListing listings lid).2 ∧
    ((deleteExchangeRequest reqs rid).1 = true ↔
      ∃ R ∈ reqs, R.request_id = rid) ∧
    (deleteExchangeRequest (deleteExchangeRequest reqs rid).2 rid).1 = false ∧
    (deleteExchangeRequest (deleteExchangeRequest reqs rid).2 rid).2
      = (deleteExchangeRequest reqs rid).2 := by
  unfold deleteBookListing deleteExchangeRequest
  refine ⟨by simp [List.any_eq_true], ?_, ?_, by simp [List.any_eq_true], ?_, ?_⟩
  · simp only [List.any_eq_false]
    intro x hx
    have := (List.mem_filter.mp hx).2
    simp only [bne_iff_ne, ne_eq] at this
    simp [this]
  · simp only [List.filter_filter, Bool.and_self]
  · simp only [List.any_eq_false]
    intro x hx
    have := (List.mem_filter.mp hx).2
    simp only [bne_iff_ne, ne_eq] at this
    simp [this]
  · simp only [List.filter_filter, Bool.and_self]

/-- C2: a caller who does not own the requestee listing of an existing
exchange request gets the authorization failure from `acceptExchange`, and
both stores are exactly as before: the request keeps its status, no sibling is
rejected, no listing is deleted. -/
theorem acceptExchange_unauthorized (s : StoreState) (caller requestId : Nat)
    (R : ExchangeRequest) (L : BookListing)
    (hR : getExchangeRequestById s.requests requestId = .ok R)
    (hL : getBookListingById s.listings R.requestee_listing_id = .ok L)
    (hown : L.user_id ≠ caller) :
    acceptExchange s caller requestId = (.error .notAuthorized, s) := by
  unfold acceptExchange
  simp only [hR, hL]
  simp [hown]

theorem acceptExchange_unauthorized_witness :
    acceptExchange demoState 2 1 = (.error .notAuthorized, demoState) :=
  acceptExchange_unauthorized demoState 2 1 demoReq1 demoListing100 rfl rfl
    (by decide)

/-- C5: after a successful `acceptExchange`, neither listing referenced by the
accepted request appears in `getAllBookListings` — the controller deletes both
the requestee and the requester listing. -/
theorem acceptExchange_removes_listings (s : StoreState) (caller requestId : Nat)
    (R : ExchangeRequest) (s2 : StoreState)
    (h : acceptExchange s caller requestId = (.ok R, s2)) :
    ∀ L ∈ getAllBookListings s2.listings,
      L.listing_id ≠ R.requestee_listing_id ∧
      L.listing_id ≠ R.requester_listing_id := by
  unfold acceptExchange at h
  split at h
  · exact Except.noConfusion (congrArg Prod.fst h)
  · split at h
    · exact Except.noConfusion (congrArg Prod.fst h)
    · split at h
      · exact Except.noConfusion (congrArg Prod.fst h)
      · split at h
        · exact Except.noConfusion (congrArg Prod.fst h)
        · dsimp only at h
          injection h with hfst hsnd
          injection hfst with hx
          subst hx
          subst hsnd
          intro L hL
          unfold getAllBookListings at hL
          unfold deleteBookListing at hL
          dsimp only at hL
          have h1 := List.mem_filter.mp hL
          have h2 := List.mem_filter.mp h1.1
          refine ⟨?_, ?_⟩
          · simpa using h2.2
          · simpa using h1.2

theorem acceptExchange_removes_listings_witness :
    demoListing300.listing_id ≠ demoAccepted.requestee_listing_id ∧
    demoListing300.listing_id ≠ demoAccepted.requester_listing_id :=
  acceptExchange_removes_listings demoState 1 1 demoAccepted demoPost rfl
    demoListing300 (by decide)

/-- C10: a successful `acceptExchange` on a request `T` leaves any other
pending request `Q` that offered one of `T`'s two listings (but targets a
different requestee listing) in the store, still `pending`, while the listing
`Q` offers has been deleted — the stored requests no longer all reference
existing listings. -/
theorem acceptExchange_leaves_dangling_requests (s : StoreState) (caller : Nat)
    (T : ExchangeRequest) (L : BookListing) (Q : ExchangeRequest)
    (hu : UniqueRequestIds s.requests) (hT : T ∈ s.requests)
    (hL : getBookListingById s.listings T.requestee_listing_id = .ok L)
    (hown : L.user_id = caller)
    (hQ : Q ∈ s.requests) (hQs : Q.status = "pending")
    (hQid : Q.request_id ≠ T.request_id)
    (hQr : Q.requester_listing_id = T.requestee_listing_id ∨
           Q.requester_listing_id = T.requester_listing_id)
    (hQe : Q.requestee_listing_id ≠ T.requestee_listing_id) :
    (acceptExchange s caller T.request_id).1 =
      .ok { T with status := "accepted" } ∧
    Q ∈ ((acceptExchange s caller T.request_id).2).requests ∧
    Q.status = "pending" ∧
    ∀ M ∈ getAllBookListings ((acceptExchange s caller T.request_id).2).listings,
      M.listing_id ≠ Q.requester_listing_id := by
  have hget := getExchangeRequestById_of_mem s.requests T hu hT
  have hTacc := acceptExchangeRequest_spec s.requests T hu hT
  have hcomp : acceptExchange s caller T.request_id =
      (.ok { T with status := "accepted" },
       ⟨(s.listings.filter fun l =>
            l.listing_id != T.requestee_listing_id).filter fun l =>
            l.listing_id != T.requester_listing_id,
        s.requests.map fun q =>
          if q.request_id = T.request_id then { q with status := "accepted" }
          else if q.requestee_listing_id = T.requestee_listing_id then
            { q with status := "rejected" }
          else q⟩) := by
    unfold acceptExchange
    simp only [hget, hL, hown, bne_self_eq_false, Bool.false_eq_true,
      if_false, hTacc]
    rfl
  refine ⟨by rw [hcomp], ?_, hQs, ?_⟩
  · rw [hcomp]
    exact List.mem_map.mpr ⟨Q, hQ, by rw [if_neg hQid, if_neg hQe]⟩
  · rw [hcomp]
    intro M hM
    unfold getAllBookListings at hM
    have h1 := List.mem_filter.mp hM
    have h2 := List.mem_filter.mp h1.1
    rcases hQr with hc | hc
    · rw [hc]
      simpa using h2.2
    · rw [hc]
      simpa using h1.2

theorem acceptExchange_leaves_dangling_requests_witness :
    (acceptExchange demoState 1 demoReq1.request_id).1 =
      .ok { demoReq1 with status := "accepted" } ∧
    demoReq3 ∈ ((acceptExchange demoState 1 demoReq1.request_id).2).requests ∧
    demoReq3.status = "pending" ∧
    ∀ M ∈ getAllBookListings
        ((acceptExchange demoState 1 demoReq1.request_id).2).listings,
      M.listing_id ≠ demoReq3.requester_listing_id :=
  acceptExchange_leaves_dangling_requests demoState 1 demoReq1 demoListing100
    demoReq3 (by decide) (by decide) rfl rfl (by decide) rfl (by decide)
    (Or.inr rfl) (by decide)

theorem find?_append_fresh :
    ∀ (reqs : List ExchangeRequest) (row : ExchangeRequest),
      (∀ r ∈ reqs, r.request_id ≠ row.request_id) →
      (reqs ++ [row]).find? (fun r => r.request_id == row.request_id)
        = some row := by
  intro reqs
  induction reqs with
  | nil => intro row _; simp
  | cons a as ih =>
    intro row hfresh
    rw [List.cons_append, List.find?_cons_of_neg]
    · exact ih row fun r hr => hfresh r (List.mem_cons_of_mem a hr)
    · simp [hfresh a (List.mem_cons_self a as)]

theorem getById_append_fresh (reqs : List ExchangeRequest)
    (row : ExchangeRequest)
    (hfresh : ∀ r ∈ reqs, r.request_id ≠ row.request_id) :
    getExchangeRequestById (reqs ++ [row]) row.request_id = .ok row := by
  unfold getExchangeRequestById
  rw [find?_append_fresh reqs row hfresh]

/-- C3: with two listings of distinct owners and no prior request for the
pair, the service-level `create(L1,L2)` succeeds exactly once — a repeat of the
same ordered pair fails with the duplicate error and changes nothing — and it
does not block the reverse ordered pair `create(L2,L1)`. -/
theorem create_once_duplicate_blocked_reverse_allowed
    (listings : List BookListing) (reqs : List ExchangeRequest)
    (l1 l2 a b t1 t2 t3 id1 id2 : Nat)
    (h1 : listingOwner listings l1 = some a)
    (h2 : listingOwner listings l2 = some b)
    (hab : a ≠ b)
    (hdup12 : exchangeRequestExists reqs l1 l2 = false)
    (hdup21 : exchangeRequestExists reqs l2 l1 = false)
    (hfresh1 : ∀ r ∈ reqs, r.request_id ≠ id1)
    (hfresh2 : ∀ r ∈ reqs, r.request_id ≠ id2)
    (hne : id2 ≠ id1) :
    ∃ row1 reqs1,
      serviceCreateExchangeRequest listings reqs l1 l2 t1 id1
        = (.ok row1, reqs1) ∧
      serviceCreateExchangeRequest listings reqs1 l1 l2 t2 id2
        = (.error (.createExchangeRequestError
            "An exchange request already exists between these listings"), reqs1) ∧
      ∃ row2 reqs2,
        serviceCreateExchangeRequest listings reqs1 l2 l1 t3 id2
          = (.ok row2, reqs2) := by
  have hl12 : l1 ≠ l2 := by
    intro hll
    rw [hll, h2] at h1
    exact hab (Option.some.inj h1).symm
  set row1 : ExchangeRequest :=
    { request_id := id1, requestee_listing_id := l1, requester_listing_id := l2,
      status := "pending", request_date := t1 } with hrow1
  have hread1 : getExchangeRequestById (reqs ++ [row1]) id1 = .ok row1 :=
    getById_append_fresh reqs row1 hfresh1
  have hfirst : serviceCreateExchangeRequest listings reqs l1 l2 t1 id1
      = (.ok row1, reqs ++ [row1]) := by
    unfold serviceCreateExchangeRequest createExchangeRequestDao
    simp only [hdup12, Bool.false_eq_true, if_false, h1, h2,
      beq_eq_false_iff_ne.mpr hab, Bool.false_eq_true, if_false, ite_self,
      Option.getD_some, hread1]
  refine ⟨row1, reqs ++ [row1], hfirst, ?_, ?_⟩
  · have hexists2 : exchangeRequestExists (reqs ++ [row1]) l1 l2 = true := by
      unfold exchangeRequestExists
      rw [List.any_append]
      simp
    unfold serviceCreateExchangeRequest
    simp only [hexists2, if_true]
  · have hexists3 : exchangeRequestExists (reqs ++ [row1]) l2 l1 = false := by
      unfold exchangeRequestExists at hdup21 ⊢
      rw [List.any_append, hdup21]
      simp [hl12]
    set row2 : ExchangeRequest :=
      { request_id := id2, requestee_listing_id := l2,
        requester_listing_id := l1, status := "pending",
        request_date := t3 } with hrow2
    have hfresh2' : ∀ r ∈ reqs ++ [row1], r.request_id ≠ id2 := by
      intro r hr
      rcases List.mem_append.mp hr with h | h
      · exact hfresh2 r h
      · rw [List.mem_singleton.mp h, hrow1]
        exact fun hcontra => hne hcontra.symm
    have hread2 : getExchangeRequestById ((reqs ++ [row1]) ++ [row2]) id2
        = .ok row2 := getById_append_fresh (reqs ++ [row1]) row2 hfresh2'
    refine ⟨row2, (reqs ++ [row1]) ++ [row2], ?_⟩
    unfold serviceCreateExchangeRequest createExchangeRequestDao
    simp only [hexists3, Bool.false_eq_true, if_false, h1, h2,
      beq_eq_false_iff_ne.mpr (Ne.symm hab), ite_self, Option.getD_some, hread2]

theorem create_once_duplicate_blocked_reverse_allowed_witness :
    ∃ row1 reqs1,
      serviceCreateExchangeRequest [demoListing100, demoListing200] [] 100 200
        50 1 = (.ok row1, reqs1) ∧
      serviceCreateExchangeRequest [demoListing100, demoListing200] reqs1 100
        200 51 2
        = (.error (.createExchangeRequestError
            "An exchange request already exists between these listings"), reqs1) ∧
      ∃ row2 reqs2,
        serviceCreateExchangeRequest [demoListing100, demoListing200] reqs1 200
          100 52 2 = (.ok row2, reqs2) :=
  create_once_duplicate_blocked_reverse_allowed [demoListing100, demoListing200]
    [] 100 200 1 2 50 51 52 1 2 rfl rfl (by decide) rfl rfl (by decide)
    (by decide) (by decide)

/-- C4: the service-level `create(L1,L1)` always fails with the validation
error class (`CreateExchangeRequestError`), and `create(L1,L2)` for two
listings owned by the same user also fails with that class, inserting no
exchange request in either case. -/
theorem create_rejects_self_and_same_owner (listings : List BookListing)
    (reqs : List ExchangeRequest) (l1 l2 t newId u : Nat)
    (h1 : listingOwner listings l1 = some u)
    (h2 : listingOwner listings l2 = some u) :
    (∃ e, serviceCreateExchangeRequest listings reqs l1 l1 t newId
        = (.error e, reqs) ∧ e.isCreateError = true) ∧
    (∃ e, serviceCreateExchangeRequest listings reqs l1 l2 t newId
        = (.error e, reqs) ∧ e.isCreateError = true) := by
  constructor
  · unfold serviceCreateExchangeRequest
    cases hdup : exchangeRequestExists reqs l1 l1 with
    | true =>
      exact ⟨.createExchangeRequestError
        "An exchange request already exists between these listings",
        by simp [hdup], rfl⟩
    | false =>
      refine ⟨.createExchangeRequestError
        "Cannot create exchange request between listings owned by the same user",
        ?_, rfl⟩
      simp only [hdup, Bool.false_eq_true, if_false]
      unfold createExchangeRequestDao
      simp [h1]
  · unfold serviceCreateExchangeRequest
    cases hdup : exchangeRequestExists reqs l1 l2 with
    | true =>
      exact ⟨.createExchangeRequestError
        "An exchange request already exists between these listings",
        by simp [hdup], rfl⟩
    | false =>
      refine ⟨.createExchangeRequestError
        "Cannot create exchange request between listings owned by the same user",
        ?_, rfl⟩
      simp only [hdup, Bool.false_eq_true, if_false]
      unfold createExchangeRequestDao
      simp [h1, h2]

theorem create_rejects_self_and_same_owner_witness :
    (∃ e, serviceCreateExchangeRequest [demoListing100, demoListing101] [] 100
        100 9 1 = (.error e, []) ∧ e.isCreateError = true) ∧
    (∃ e, serviceCreateExchangeRequest [demoListing100, demoListing101] [] 100
        101 9 1 = (.error e, []) ∧ e.isCreateError = true) :=
  create_rejects_self_and_same_owner [demoListing100, demoListing101] [] 100
    101 9 1 1 rfl rfl

/-- C6 (amended): when the targeted row does not exist after the write, the
listing store's `update` fails with `UpdateBookListingError` and the exchange
store's `updateStatus` fails with `UpdateExchangeRequestError` — the
update-failure classes their code wraps the internal NotFound error into —
and both transactions roll back. -/
theorem update_missing_row_error_class (listings : List BookListing)
    (reqs : List ExchangeRequest) (lid rid : Nat) (u : ListingUpdates)
    (st : String)
    (hl : ∀ L ∈ listings, L.listing_id ≠ lid)
    (hr : ∀ R ∈ reqs, R.request_id ≠ rid) :
    updateBookListing listings lid u
      = (.error .updateBookListingError, listings) ∧
    updateExchangeRequestStatus reqs rid st
      = (.error .updateExchangeRequestError, reqs) := by
  constructor
  · unfold updateBookListing getBookListingById
    have hnone : (listings.map fun l =>
        if l.listing_id == lid then applyListingUpdates u l else l).find?
        (fun l => l.listing_id == lid) = none := by
      rw [List.find?_eq_none]
      intro x hx
      rw [List.mem_map] at hx
      obtain ⟨y, hy, hxy⟩ := hx
      subst hxy
      have hid : (if y.listing_id == lid then
          applyListingUpdates u y else y).listing_id = y.listing_id := by
        split <;> rfl
      simp [hid, hl y hy]
    simp only [hnone]
  · unfold updateExchangeRequestStatus getExchangeRequestById
    have hnone : (reqs.map fun r =>
        if r.request_id == rid then { r with status := st } else r).find?
        (fun r => r.request_id == rid) = none := by
      rw [List.find?_eq_none]
      intro x hx
      rw [List.mem_map] at hx
      obtain ⟨y, hy, hxy⟩ := hx
      subst hxy
      have hid : (if y.request_id == rid then
          ({ y with status := st } : ExchangeRequest) else y).request_id
          = y.request_id := by
        split <;> rfl
      simp [hid, hr y hy]
    simp only [hnone]

theorem update_missing_row_error_class_witness :
    updateBookListing [demoListing300] 5 {}
      = (.error .updateBookListingError, [demoListing300]) ∧
    updateExchangeRequestStatus [demoReq1] 5 "rejected"
      = (.error .updateExchangeRequestError, [demoReq1]) :=
  update_missing_row_error_class [demoListing300] [demoReq1] 5 5 {} "rejected"
    (by decide) (by decide)

/-- C6 as literally stated is false: on a store without the row, `update`
raises the update-failure class, not the NotFound class the claim names. -/
theorem update_missing_row_counterexample :
    updateBookListing [] 1 {} = (.error .updateBookListingError, []) ∧
    DomainError.updateBookListingError ≠ DomainError.bookListingNotFound ∧
    updateExchangeRequestStatus [] 1 "accepted"
      = (.error .updateExchangeRequestError, []) ∧
    DomainError.updateExchangeRequestError
      ≠ DomainError.exchangeRequestNotFound :=
  ⟨rfl, by decide, rfl, by decide⟩

end BookSwap
